import Mathlib

/-!
Shallow embedding of the core compilation logic of `myscript.py`
(`compile_csv_files_from_zip`): a zip archive of CSV files is extracted,
files named `<base>_e_detail.csv` / `<base>_e_sup.csv` are grouped by base
name, each pair is combined, all pairs are concatenated into a master table,
and the total row count is reconciled against the sum of the source row
counts.

Modelling choices:
* A parsed CSV (`pandas.DataFrame`) is modelled as a `List String` of opaque
  rows; `len(df)` is `List.length` and `df.empty` is `List.isEmpty` (every
  DataFrame returned by `read_csv` has columns, so `empty` iff no rows).
* `pd.read_csv` is an oracle `String → ParseResult`; `ParseResult.error msg
  isEmptyData` models a raised exception, with `isEmptyData = true` marking
  `pandas.errors.EmptyDataError`.
* The zip extraction is an oracle `ExtractResult`: either the list of
  `(root, filename)` entries produced by `os.walk` in traversal order, or an
  extraction failure with its reason.
* `log_messages` is kept as the `List String` that the source builds; the
  source returns `"\n".join(log_messages)` at the end, a trivial final step.
* `pd.concat` is modelled as list append/flatten (total: the unexpected
  internal `AggregationError` fault has no counterpart in the model).
-/

/-- Python `str.startswith`. -/
def pyStartsWith (s p : String) : Bool := p.data.isPrefixOf s.data

/-- Python `str.endswith`. -/
def pyEndsWith (s p : String) : Bool := p.data.isSuffixOf s.data

/-- Python `str.replace` (all non-overlapping occurrences, left to right) on
character lists, written with explicit fuel so the recursion is structural;
`fuel ≥ length l` suffices when `pat ≠ []`, which is the only way it is used
(the source replaces the constant suffixes `_e_detail.csv` / `_e_sup.csv`). -/
def replaceAllFuel (rep pat : List Char) : Nat → List Char → List Char
  | 0, l => l
  | _ + 1, [] => []
  | fuel + 1, c :: rest =>
    if pat ≠ [] ∧ pat.isPrefixOf (c :: rest) then
      rep ++ replaceAllFuel rep pat fuel ((c :: rest).drop pat.length)
    else
      c :: replaceAllFuel rep pat fuel rest

/-- Python `s.replace(pat, rep)` for nonempty `pat`. -/
def pyReplace (s pat rep : String) : String :=
  ⟨replaceAllFuel rep.data pat.data s.data.length s.data⟩

/-- `os.path.join(root, filename)` (posix). -/
def joinPath (root fn : String) : String := root ++ "/" ++ fn

/-- Result of `pd.read_csv` on one file: parsed rows, or a raised exception
(with `isEmptyData = true` for `pandas.errors.EmptyDataError`). -/
inductive ParseResult where
  | ok (df : List String)
  | error (msg : String) (isEmptyData : Bool)
deriving DecidableEq, Repr

/-- Result of `zipfile.ZipFile(...).extractall`: the `(root, filename)`
entries of the extracted tree in `os.walk` traversal order, or the failure
reason caught by the `except` at the extraction stage. -/
inductive ExtractResult where
  | ok (files : List (String × String))
  | error (reason : String)
deriving DecidableEq, Repr

/-- One entry of the `file_pairs` dict: the recorded paths of the base
name's detail and supplemental members. -/
structure PairPaths where
  detail : Option String := none
  sup : Option String := none
deriving DecidableEq, Repr

/-- Classification of one walked filename, mirroring the body of the
discovery loop: skip names starting with `._`; a name ending in
`_e_detail.csv` yields `(base, true)`, one ending in `_e_sup.csv` yields
`(base, false)` (base derived with Python `replace`); anything else is
ignored. -/
def classify (filename : String) : Option (String × Bool) :=
  if pyStartsWith filename "._" then none
  else if pyEndsWith filename "_e_detail.csv" then
    some (pyReplace filename "_e_detail.csv" "", true)
  else if pyEndsWith filename "_e_sup.csv" then
    some (pyReplace filename "_e_sup.csv" "", false)
  else none

/-- `file_pairs[base_name][file_type] = path` on the association-list model
of the dict: update the existing entry for `base`, or append a fresh one
(Python dicts keep first-insertion key order). -/
def insertPair : List (String × PairPaths) → String → Bool → String →
    List (String × PairPaths)
  | [], base, isDetail, path =>
    [(base, if isDetail then ⟨some path, none⟩ else ⟨none, some path⟩)]
  | (k, v) :: rest, base, isDetail, path =>
    if k = base then
      (k, if isDetail then { v with detail := some path }
          else { v with sup := some path }) :: rest
    else
      (k, v) :: insertPair rest base isDetail path

/-- The body of the discovery loop for one walked `(root, filename)`
entry. -/
def discoverStep (m : List (String × PairPaths)) (rf : String × String) :
    List (String × PairPaths) :=
  match classify rf.2 with
  | none => m
  | some (base, isDetail) => insertPair m base isDetail (joinPath rf.1 rf.2)

/-- Part 1 of the source: walk all `(root, filename)` entries and build the
`file_pairs` mapping (last writer wins per `(base, type)`). -/
def discoverPairs (files : List (String × String)) : List (String × PairPaths) :=
  files.foldl discoverStep []

/-- Lexicographic-by-code-point `≤` on character lists, the order Python
uses to compare strings; written as a structural boolean function so that
it evaluates inside the kernel (`String.decidableLE` does not). -/
def charListLe : List Char → List Char → Bool
  | [], _ => true
  | _ :: _, [] => false
  | a :: as, b :: bs =>
    if a.toNat < b.toNat then true
    else if b.toNat < a.toNat then false
    else charListLe as bs

/-- Python `a <= b` on strings. -/
def pyLe (a b : String) : Bool := charListLe a.data b.data

/-- The comparison Python's `sorted` applies to `file_pairs.items()`:
item order is decided by the base-name key (keys are distinct in a dict, so
the value component is never compared). -/
def pairLe (a b : String × PairPaths) : Prop := pyLe a.1 b.1 = true

instance : DecidableRel pairLe := fun a b => instDecidableEqBool (pyLe a.1 b.1) true

/-- `sorted(file_pairs.items())`. -/
def sortPairs (l : List (String × PairPaths)) : List (String × PairPaths) :=
  l.insertionSort pairLe

/-- The mutable state threaded through the Part 2 loop of the source. -/
structure CombineState where
  all_dataframes : List (List String)
  source_row_counter : Nat
  success_count : Nat
  skipped_count : Nat
  log_messages : List String
deriving DecidableEq, Repr

/-- The warning logged when a base name has no detail member. -/
def warnLine (base : String) : String :=
  s!"  -> ⚠️ WARNING: Skipping {base} (essential detail file is missing)."

/-- The error logged by the per-unit exception handler. -/
def errorLine (base msg : String) : String :=
  s!"  -> ❌ ERROR processing {base}: {msg}"

/-- The success log line of one unit. -/
def processedLine (base : String) : String := s!"  -> Processed: {base}"

/-- One iteration of the Part 2 loop of the source for `(base_name, paths)`:
parse the detail file (any failure logs an error and skips the unit), add
its row count to the running source counter, then, when a supplemental
member exists, parse it — `EmptyDataError` is swallowed, any other parse
error is caught by the outer handler (error log, skip), and nonempty data is
counted and concatenated after the detail rows — finally append the unit's
table, log success and count it. -/
def processPair (read_csv : String → ParseResult) (st : CombineState)
    (pair : String × PairPaths) : CombineState :=
  match pair.2.detail with
  | none =>
      { st with
        log_messages := st.log_messages ++ [warnLine pair.1],
        skipped_count := st.skipped_count + 1 }
  | some dpath =>
    match read_csv dpath with
    | ParseResult.error msg _ =>
        { st with
          log_messages := st.log_messages ++ [errorLine pair.1 msg],
          skipped_count := st.skipped_count + 1 }
    | ParseResult.ok detail_df =>
      let counter1 := st.source_row_counter + detail_df.length
      match pair.2.sup with
      | none =>
          { st with
            all_dataframes := st.all_dataframes ++ [detail_df],
            source_row_counter := counter1,
            log_messages := st.log_messages ++ [processedLine pair.1],
            success_count := st.success_count + 1 }
      | some spath =>
        match read_csv spath with
        | ParseResult.ok sup_df =>
          if sup_df.isEmpty then
            { st with
              all_dataframes := st.all_dataframes ++ [detail_df],
              source_row_counter := counter1,
              log_messages := st.log_messages ++ [processedLine pair.1],
              success_count := st.success_count + 1 }
          else
            { st with
              all_dataframes := st.all_dataframes ++ [detail_df ++ sup_df],
              source_row_counter := counter1 + sup_df.length,
              log_messages := st.log_messages ++ [processedLine pair.1],
              success_count := st.success_count + 1 }
        | ParseResult.error _ true =>
            { st with
              all_dataframes := st.all_dataframes ++ [detail_df],
              source_row_counter := counter1,
              log_messages := st.log_messages ++ [processedLine pair.1],
              success_count := st.success_count + 1 }
        | ParseResult.error msg false =>
            { st with
              source_row_counter := counter1,
              log_messages := st.log_messages ++ [errorLine pair.1 msg],
              skipped_count := st.skipped_count + 1 }

/-- The whole Part 2 loop over the sorted pairs. -/
def combinePairs (read_csv : String → ParseResult)
    (pairs : List (String × PairPaths)) (st : CombineState) : CombineState :=
  pairs.foldl (processPair read_csv) st

/-- `"="*40` and friends. -/
def sep40 (c : Char) : String := String.mk (List.replicate 40 c)

/-- Digit grouping of Python's `{n:,}` format: commas every three digits
from the right; operates on the reversed digit list. -/
def commaGroups : List Char → List Char
  | [] => []
  | [a] => [a]
  | [a, b] => [a, b]
  | [a, b, c] => [a, b, c]
  | a :: b :: c :: d :: rest => a :: b :: c :: ',' :: commaGroups (d :: rest)

/-- Python `f"{n:,}"` for a natural number. -/
def commaFmt (n : Nat) : String :=
  String.mk (commaGroups (toString n).data.reverse).reverse

/-- The verdict line appended when the row counts match. -/
def passedLine : String := "✅ VERIFICATION PASSED: The row counts match perfectly."

/-- The verdict line appended on a mismatch of `m` rows. -/
def failedLine (m : Nat) : String :=
  "❌ VERIFICATION FAILED: Mismatch of " ++ commaFmt m ++ " rows detected."

/-- The `summary` block built in Part 3 of the source. -/
def summaryLines (success_count skipped_count source_row_counter final_df_rows : Nat) :
    List String :=
  ["\n" ++ sep40 '=', "          PROCESS COMPLETE: SUMMARY", sep40 '=',
   s!"Total base names processed successfully: {success_count}",
   s!"Total base names skipped or failed:    {skipped_count}",
   sep40 '-', "Data Integrity Verification:",
   "  - Sum of rows from all source files:  " ++ commaFmt source_row_counter,
   "  - Total rows in the final master file:  " ++ commaFmt final_df_rows,
   sep40 '-'] ++
  (if final_df_rows = source_row_counter then [passedLine]
   else [failedLine (((final_df_rows : Int) - (source_row_counter : Int)).natAbs)]) ++
  [sep40 '=']

/-- The core function `compile_csv_files_from_zip` of `myscript.py`. The
returned log is the `log_messages` list (the source returns
`"\n".join(log_messages)`); the returned table is `None` (here `none`) on
extraction failure, when no pairs are discovered, or when no unit
succeeded. -/
def compile_csv_files_from_zip (uploaded_zip_file : ExtractResult)
    (read_csv : String → ParseResult) : Option (List String) × List String :=
  let log0 := ["✔️ Zip file uploaded. Extracting contents..."]
  match uploaded_zip_file with
  | ExtractResult.error e =>
      (none, log0 ++ [s!"❌ ERROR: Could not extract zip file. Reason: {e}"])
  | ExtractResult.ok files =>
    let log1 := log0 ++
      ["✔️ Extraction complete.", "\n--- Part 1: Finding and Grouping File Pairs ---"]
    let file_pairs := discoverPairs files
    let log2 := log1 ++
      [s!"Grouping complete. Found {file_pairs.length} unique base names to process.",
       "\n--- Part 2: Processing Pairs for Final Compilation ---"]
    if file_pairs.isEmpty then
      (none, log2 ++ ["❌ No file pairs were found to process."])
    else
      let st := combinePairs read_csv (sortPairs file_pairs) ⟨[], 0, 0, 0, log2⟩
      let log3 := st.log_messages ++ ["\n--- Part 3: Compiling Final Output ---"]
      if st.all_dataframes.isEmpty then
        (none, log3 ++ ["No data was successfully processed, so no master file was created."])
      else
        let master_df := st.all_dataframes.flatten
        (some master_df,
         log3 ++ summaryLines st.success_count st.skipped_count
           st.source_row_counter master_df.length)

/-- The table one `(base, paths)` unit contributes to `all_dataframes`
(`none` when the unit is skipped); mirrors the branches of `processPair`. -/
def unitTable (read_csv : String → ParseResult) (pair : String × PairPaths) :
    Option (List String) :=
  match pair.2.detail with
  | none => none
  | some dpath =>
    match read_csv dpath with
    | ParseResult.error _ _ => none
    | ParseResult.ok detail_df =>
      match pair.2.sup with
      | none => some detail_df
      | some spath =>
        match read_csv spath with
        | ParseResult.ok sup_df =>
          if sup_df.isEmpty then some detail_df else some (detail_df ++ sup_df)
        | ParseResult.error _ true => some detail_df
        | ParseResult.error _ false => none

/-- What one unit adds to `source_row_counter`; mirrors `processPair`.  Note
that a unit whose detail file parses but whose supplemental parse fails still
contributes its detail row count. -/
def unitCounter (read_csv : String → ParseResult) (pair : String × PairPaths) : Nat :=
  match pair.2.detail with
  | none => 0
  | some dpath =>
    match read_csv dpath with
    | ParseResult.error _ _ => 0
    | ParseResult.ok detail_df =>
      match pair.2.sup with
      | none => detail_df.length
      | some spath =>
        match read_csv spath with
        | ParseResult.ok sup_df =>
          if sup_df.isEmpty then detail_df.length
          else detail_df.length + sup_df.length
        | ParseResult.error _ true => detail_df.length
        | ParseResult.error _ false => detail_df.length

/-- The single log line one unit appends; mirrors `processPair`. -/
def unitLogLine (read_csv : String → ParseResult) (pair : String × PairPaths) : String :=
  match pair.2.detail with
  | none => warnLine pair.1
  | some dpath =>
    match read_csv dpath with
    | ParseResult.error msg _ => errorLine pair.1 msg
    | ParseResult.ok _ =>
      match pair.2.sup with
      | none => processedLine pair.1
      | some spath =>
        match read_csv spath with
        | ParseResult.ok _ => processedLine pair.1
        | ParseResult.error _ true => processedLine pair.1
        | ParseResult.error msg false => errorLine pair.1 msg

/-- Whether the unit is counted in `success_count` (otherwise it is counted
in `skipped_count`). -/
def unitSuccess (read_csv : String → ParseResult) (pair : String × PairPaths) : Bool :=
  (unitTable read_csv pair).isSome

/-- The walk entries of the spec's concrete scenario: `X_e_detail.csv`
(3 rows), `X_e_sup.csv` (2 rows), `Y_e_detail.csv` (1 row), and
`Z_e_sup.csv` with no detail file. -/
def demoFiles : List (String × String) :=
  [("t", "X_e_detail.csv"), ("t", "X_e_sup.csv"),
   ("t", "Y_e_detail.csv"), ("t", "Z_e_sup.csv")]

/-- The parse oracle of the concrete scenario. -/
def demoRead (p : String) : ParseResult :=
  if p = "t/X_e_detail.csv" then ParseResult.ok ["x1", "x2", "x3"]
  else if p = "t/X_e_sup.csv" then ParseResult.ok ["s1", "s2"]
  else if p = "t/Y_e_detail.csv" then ParseResult.ok ["y1"]
  else ParseResult.error "unreadable" false

/-- The log lines emitted before Part 2's per-unit lines on a run whose
extraction succeeded. -/
def headLog (files : List (String × String)) : List String :=
  ["✔️ Zip file uploaded. Extracting contents...", "✔️ Extraction complete.",
   "\n--- Part 1: Finding and Grouping File Pairs ---",
   s!"Grouping complete. Found {(discoverPairs files).length} unique base names to process.",
   "\n--- Part 2: Processing Pairs for Final Compilation ---"]

/-- First character of a string, used to tell the fixed log lines apart. -/
def headChar (s : String) : Option Char := s.data.head?

/-- A parse oracle with one two-row detail file, a one-row supplemental, a
syntactically empty supplemental, a zero-data-row supplemental, and
everything else malformed. -/
def pairRead : String → ParseResult := fun p =>
  if p = "d.csv" then ParseResult.ok ["r1", "r2"]
  else if p = "s.csv" then ParseResult.ok ["s1"]
  else if p = "empty.csv" then ParseResult.error "No columns to parse from file" true
  else if p = "zero.csv" then ParseResult.ok []
  else ParseResult.error "ParserError: bad" false

/-- An archive with one healthy unit A and one unit B whose detail parses
(to zero rows) while its supplemental is present and malformed. -/
def c6Files : List (String × String) :=
  [("t", "A_e_detail.csv"), ("t", "B_e_detail.csv"), ("t", "B_e_sup.csv")]

/-- Oracle for `C6_counterexample`: B's detail parses to zero rows, B's
supplemental is malformed. -/
def c6Read : String → ParseResult := fun p =>
  if p = "t/A_e_detail.csv" then ParseResult.ok ["a1"]
  else if p = "t/B_e_detail.csv" then ParseResult.ok []
  else ParseResult.error "ParserError: bad" false

/-- Oracle for `C6_amended_witness`: like `c6Read` but B's detail has one
row, so the retained count makes the verdict FAIL. -/
def c6bRead : String → ParseResult := fun p =>
  if p = "t/A_e_detail.csv" then ParseResult.ok ["a1"]
  else if p = "t/B_e_detail.csv" then ParseResult.ok ["b1"]
  else ParseResult.error "ParserError: bad" false

/-- A unit whose detail parses to a nonempty table and whose supplemental is
present but raises a non-EmptyData parse error. -/
def supFailB (rc : String → ParseResult) (pair : String × PairPaths) : Bool :=
  match pair.2.detail with
  | none => false
  | some dpath =>
    match rc dpath with
    | ParseResult.ok d =>
      !d.isEmpty &&
      (match pair.2.sup with
       | none => false
       | some spath =>
         match rc spath with
         | ParseResult.error _ false => true
         | _ => false)
    | ParseResult.error _ _ => false

/-- `processPair` decomposed into the per-unit contribution functions. -/
theorem processPair_eq (rc : String → ParseResult) (st : CombineState)
    (pair : String × PairPaths) :
    processPair rc st pair =
      ⟨st.all_dataframes ++ (unitTable rc pair).toList,
       st.source_row_counter + unitCounter rc pair,
       st.success_count + (if unitSuccess rc pair then 1 else 0),
       st.skipped_count + (if unitSuccess rc pair then 0 else 1),
       st.log_messages ++ [unitLogLine rc pair]⟩ := by
  obtain ⟨base, det, sup⟩ := pair
  cases det with
  | none =>
      simp [processPair, unitTable, unitCounter, unitSuccess, unitLogLine]
  | some dpath =>
    cases hd : rc dpath with
    | error msg b =>
        simp [processPair, unitTable, unitCounter, unitSuccess, unitLogLine, hd]
    | ok detail_df =>
      cases sup with
      | none =>
          simp [processPair, unitTable, unitCounter, unitSuccess, unitLogLine, hd]
      | some spath =>
        cases hs : rc spath with
        | ok sup_df =>
            by_cases he : sup_df.isEmpty <;>
              simp [processPair, unitTable, unitCounter, unitSuccess, unitLogLine,
                hd, hs, he, Nat.add_assoc]
        | error msg b =>
            cases b <;>
              simp [processPair, unitTable, unitCounter, unitSuccess, unitLogLine,
                hd, hs]

/-- The Part 2 loop decomposed: tables are the `filterMap` of the per-unit
tables, the counter is the sum of the per-unit contributions, the
success/skip counts count the per-unit outcomes, and the log gains one line
per unit. -/
theorem combinePairs_eq (rc : String → ParseResult) :
    ∀ (l : List (String × PairPaths)) (st : CombineState),
    combinePairs rc l st =
      ⟨st.all_dataframes ++ l.filterMap (unitTable rc),
       st.source_row_counter + (l.map (unitCounter rc)).sum,
       st.success_count + l.countP (fun p => unitSuccess rc p),
       st.skipped_count + l.countP (fun p => !unitSuccess rc p),
       st.log_messages ++ l.map (unitLogLine rc)⟩
  | [], st => by simp [combinePairs]
  | p :: rest, st => by
    have step : combinePairs rc (p :: rest) st =
        combinePairs rc rest (processPair rc st p) := rfl
    rw [step, combinePairs_eq rc rest (processPair rc st p), processPair_eq]
    simp only [CombineState.mk.injEq, List.filterMap_cons, List.countP_cons,
      List.map_cons, List.sum_cons]
    refine ⟨?_, by omega, ?_, ?_, by simp⟩
    · cases h : unitTable rc p <;> simp [h]
    · by_cases h : unitSuccess rc p = true <;> simp [h] <;> omega
    · by_cases h : unitSuccess rc p = true <;> simp [h] <;> omega

/-- `charListLe` decides the negation of the lexicographic strict order on
character lists. -/
theorem charListLe_iff : ∀ x y : List Char,
    charListLe x y = true ↔ ¬ List.Lex (· < ·) y x
  | [], y => by
    simp [charListLe]
  | a :: as, [] => by
    rw [show charListLe (a :: as) [] = false from rfl]
    simp
    exact List.Lex.nil
  | a :: as, b :: bs => by
    by_cases h₁ : a.toNat < b.toNat
    · rw [charListLe, if_pos h₁]
      have hab : a < b := h₁
      simp only [true_iff]
      intro hlex
      cases hlex with
      | cons h => exact lt_irrefl _ hab
      | rel h => exact lt_asymm hab h
    · by_cases h₂ : b.toNat < a.toNat
      · rw [charListLe, if_neg h₁, if_pos h₂]
        have hba : b < a := h₂
        simp only [Bool.false_eq_true, false_iff, not_not]
        exact List.Lex.rel hba
      · have hab : ¬ a < b := h₁
        have hba : ¬ b < a := h₂
        have heq : a = b := le_antisymm (le_of_not_lt hba) (le_of_not_lt hab)
        subst heq
        rw [charListLe, if_neg h₁, if_neg h₂, charListLe_iff as bs]
        constructor
        · intro h hlex
          cases hlex with
          | cons h' => exact h h'
          | rel h' => exact lt_irrefl _ h'
        · intro h h'
          exact h (List.Lex.cons h')

/-- `pyLe` agrees with the library order on strings. -/
theorem pyLe_iff (a b : String) : pyLe a b = true ↔ a ≤ b := by
  rw [pyLe, charListLe_iff, String.le_iff_toList_le]
  exact not_lt (a := b.toList) (b := a.toList)

instance : IsTotal (String × PairPaths) pairLe :=
  ⟨fun a b => by
    rcases le_total a.1 b.1 with h | h
    · exact Or.inl ((pyLe_iff _ _).mpr h)
    · exact Or.inr ((pyLe_iff _ _).mpr h)⟩

instance : IsTrans (String × PairPaths) pairLe :=
  ⟨fun _ _ _ hab hbc =>
    (pyLe_iff _ _).mpr (le_trans ((pyLe_iff _ _).mp hab) ((pyLe_iff _ _).mp hbc))⟩

/-- `sortPairs` is a permutation of its input. -/
theorem sortPairs_perm (l : List (String × PairPaths)) : (sortPairs l).Perm l :=
  List.perm_insertionSort _ l

/-- The keys of `sortPairs l` are in ascending lexicographic order. -/
theorem sortPairs_sorted_keys (l : List (String × PairPaths)) :
    ((sortPairs l).map Prod.fst).Sorted (· ≤ ·) := by
  have h := List.sorted_insertionSort pairLe l
  rw [List.Sorted, List.pairwise_map]
  exact h.imp (fun hab => (pyLe_iff _ _).mp hab)

/-- The keys after an insertion: unchanged when the base is already present,
otherwise the base is appended. -/
theorem insertPair_map_fst :
    ∀ (m : List (String × PairPaths)) (base : String) (d : Bool) (path : String),
    (insertPair m base d path).map Prod.fst =
      if base ∈ m.map Prod.fst then m.map Prod.fst else m.map Prod.fst ++ [base]
  | [], base, d, path => by simp [insertPair]
  | (k, v) :: rest, base, d, path => by
    by_cases h : k = base
    · subst h
      simp [insertPair]
    · rw [show insertPair ((k, v) :: rest) base d path =
          (k, v) :: insertPair rest base d path by simp [insertPair, h]]
      have hne : ¬ base = k := fun hk => h hk.symm
      simp only [List.map_cons, insertPair_map_fst rest base d path, List.mem_cons, hne,
        false_or]
      by_cases hm : base ∈ rest.map Prod.fst <;> simp [hm]

/-- Insertion preserves distinctness of the keys. -/
theorem insertPair_keys_nodup {m : List (String × PairPaths)} {base : String}
    {d : Bool} {path : String} (h : (m.map Prod.fst).Nodup) :
    ((insertPair m base d path).map Prod.fst).Nodup := by
  rw [insertPair_map_fst]
  by_cases hm : base ∈ m.map Prod.fst
  · simpa [hm] using h
  · simp [hm, List.nodup_append, h]

/-- The `file_pairs` mapping has distinct base names. -/
theorem discoverPairs_keys_nodup (files : List (String × String)) :
    ((discoverPairs files).map Prod.fst).Nodup := by
  have aux : ∀ (fs : List (String × String)) (m : List (String × PairPaths)),
      (m.map Prod.fst).Nodup → (((fs.foldl discoverStep m)).map Prod.fst).Nodup := by
    intro fs
    induction fs with
    | nil => intro m hm; simpa using hm
    | cons rf rest ih =>
      intro m hm
      rw [List.foldl_cons]
      apply ih
      rw [discoverStep]
      cases classify rf.2 with
      | none => exact hm
      | some bd => exact insertPair_keys_nodup hm
  exact aux files [] (by simp)

/-- Sorted-by-`pyLe` plus distinct keys gives strictly increasing keys. -/
theorem pairwise_keyLt_of_sorted_nodup {l : List (String × PairPaths)}
    (hs : l.Pairwise pairLe)
    (hn : (l.map Prod.fst).Nodup) :
    l.Pairwise (fun a b => a.1 < b.1) := by
  have hne : l.Pairwise (fun a b : String × PairPaths => a.1 ≠ b.1) :=
    List.pairwise_map.mp hn
  exact (hs.and hne).imp fun h => lt_of_le_of_ne ((pyLe_iff _ _).mp h.1) h.2

instance : IsAntisymm (String × PairPaths) (fun a b => a.1 < b.1 ∨ a = b) :=
  ⟨fun a b hab hba => by
    rcases hab with h₁ | h₁
    · rcases hba with h₂ | h₂
      · exact absurd h₂ (lt_asymm h₁)
      · exact h₂.symm
    · exact h₁⟩

/-- With distinct keys, the sorted pair list depends only on the multiset of
entries: any two permuted `file_pairs` mappings sort to the same list. -/
theorem sortPairs_eq_of_perm {l₁ l₂ : List (String × PairPaths)}
    (hp : l₁.Perm l₂) (hn : (l₁.map Prod.fst).Nodup) :
    sortPairs l₁ = sortPairs l₂ := by
  have hperm : (sortPairs l₁).Perm (sortPairs l₂) :=
    (sortPairs_perm l₁).trans (hp.trans (sortPairs_perm l₂).symm)
  have hn₁ : ((sortPairs l₁).map Prod.fst).Nodup :=
    (((sortPairs_perm l₁).map Prod.fst).nodup_iff).mpr hn
  have hn₂ : ((sortPairs l₂).map Prod.fst).Nodup :=
    (((sortPairs_perm l₂).map Prod.fst).nodup_iff).mpr ((hp.map Prod.fst).nodup_iff.mp hn)
  have hs₁ := pairwise_keyLt_of_sorted_nodup (List.sorted_insertionSort pairLe l₁) hn₁
  have hs₂ := pairwise_keyLt_of_sorted_nodup (List.sorted_insertionSort pairLe l₂) hn₂
  exact List.eq_of_perm_of_sorted
    (r := fun a b : String × PairPaths => a.1 < b.1 ∨ a = b) hperm
    (hs₁.imp Or.inl) (hs₂.imp Or.inl)

/-- Full decomposition of a run with successful extraction into the
discovery, sorting, per-unit and summary stages. -/
theorem compile_ok_eq (files : List (String × String)) (rc : String → ParseResult) :
    compile_csv_files_from_zip (ExtractResult.ok files) rc =
      (if (discoverPairs files).isEmpty then
        (none, headLog files ++ ["❌ No file pairs were found to process."])
      else if ((sortPairs (discoverPairs files)).filterMap (unitTable rc)).isEmpty then
        (none, headLog files ++
          (sortPairs (discoverPairs files)).map (unitLogLine rc) ++
          ["\n--- Part 3: Compiling Final Output ---",
           "No data was successfully processed, so no master file was created."])
      else
        (some ((sortPairs (discoverPairs files)).filterMap (unitTable rc)).flatten,
         headLog files ++
           (sortPairs (discoverPairs files)).map (unitLogLine rc) ++
           ["\n--- Part 3: Compiling Final Output ---"] ++
           summaryLines
             ((sortPairs (discoverPairs files)).countP (fun p => unitSuccess rc p))
             ((sortPairs (discoverPairs files)).countP (fun p => !unitSuccess rc p))
             (((sortPairs (discoverPairs files)).map (unitCounter rc)).sum)
             ((((sortPairs (discoverPairs files)).filterMap (unitTable rc)).flatten).length))) := by
  simp only [compile_csv_files_from_zip, combinePairs_eq, headLog]
  simp only [List.nil_append, Nat.zero_add, List.append_assoc]
  rfl

/-- C1: for the archive containing `X_e_detail.csv` (3 rows), `X_e_sup.csv`
(2 rows), `Y_e_detail.csv` (1 row), and `Z_e_sup.csv` with no detail file,
the run returns a master table of exactly 6 rows ordered as X's 5 rows then
Y's 1 row, and its log reports success_count = 2, skipped_count = 1,
source_row_counter = 6, final rows = 6 and the PASSED verdict. -/
theorem C1_concrete_scenario :
    (compile_csv_files_from_zip (ExtractResult.ok demoFiles) demoRead).1 =
      some ["x1", "x2", "x3", "s1", "s2", "y1"] ∧
    "Total base names processed successfully: 2" ∈
      (compile_csv_files_from_zip (ExtractResult.ok demoFiles) demoRead).2 ∧
    "Total base names skipped or failed:    1" ∈
      (compile_csv_files_from_zip (ExtractResult.ok demoFiles) demoRead).2 ∧
    "  - Sum of rows from all source files:  6" ∈
      (compile_csv_files_from_zip (ExtractResult.ok demoFiles) demoRead).2 ∧
    "  - Total rows in the final master file:  6" ∈
      (compile_csv_files_from_zip (ExtractResult.ok demoFiles) demoRead).2 ∧
    passedLine ∈ (compile_csv_files_from_zip (ExtractResult.ok demoFiles) demoRead).2 := by
  refine ⟨by decide, by decide, by decide, by decide, by decide, by decide⟩

/-- C8: when extraction fails, the run returns absence-of-table and the log
holds exactly the upload line followed by the extraction-failure line — no
discovery, combination or aggregation stage appends anything. -/
theorem C8_extraction_failure (reason : String) (rc : String → ParseResult) :
    compile_csv_files_from_zip (ExtractResult.error reason) rc =
      (none, ["✔️ Zip file uploaded. Extracting contents...",
              "❌ ERROR: Could not extract zip file. Reason: " ++ reason]) := by
  simp [compile_csv_files_from_zip, toString]

/-- Strings with different first characters differ. -/
theorem ne_of_headChar {a b : String} (h : headChar a ≠ headChar b) : a ≠ b :=
  fun e => h (congrArg headChar e)

/-- The first character survives an append on the right. -/
theorem headChar_append (a b : String) (c : Char) (h : headChar a = some c) :
    headChar (a ++ b) = some c := by
  obtain ⟨la⟩ := a
  obtain ⟨lb⟩ := b
  cases la with
  | nil => exact absurd h (by simp [headChar])
  | cons x xs => simpa [headChar, String.append] using h

theorem warnLine_headChar (b : String) : headChar (warnLine b) = some ' ' :=
  headChar_append _ _ _ (headChar_append _ _ _ rfl)

theorem errorLine_headChar (b m : String) : headChar (errorLine b m) = some ' ' :=
  headChar_append _ _ _ (headChar_append _ _ _ (headChar_append _ _ _
    (headChar_append _ _ _ rfl)))

theorem processedLine_headChar (b : String) : headChar (processedLine b) = some ' ' :=
  headChar_append _ _ _ (headChar_append _ _ _ rfl)

theorem passedLine_headChar : headChar passedLine = some '✅' := rfl

theorem failedLine_headChar (m : Nat) : headChar (failedLine m) = some '❌' :=
  headChar_append _ _ _ (headChar_append _ _ _ rfl)

/-- Every per-unit log line starts with a blank. -/
theorem unitLogLine_headChar (rc : String → ParseResult) (p : String × PairPaths) :
    headChar (unitLogLine rc p) = some ' ' := by
  rcases p with ⟨base, det, sup⟩
  rcases det with _ | dpath
  · exact warnLine_headChar base
  · rcases hd : rc dpath with d | ⟨m, b⟩
    · rcases sup with _ | spath
      · simp only [unitLogLine, hd]
        exact processedLine_headChar base
      · rcases hs : rc spath with s | ⟨m2, b2⟩
        · simp only [unitLogLine, hd, hs]
          exact processedLine_headChar base
        · cases b2
          · simp only [unitLogLine, hd, hs]
            exact errorLine_headChar base m2
          · simp only [unitLogLine, hd, hs]
            exact processedLine_headChar base
    · simp only [unitLogLine, hd]
      exact errorLine_headChar base m

theorem totalSuccLine_headChar (n : Nat) :
    headChar (s!"Total base names processed successfully: {n}") = some 'T' :=
  headChar_append _ _ _ (headChar_append _ _ _ rfl)

theorem totalSkipLine_headChar (n : Nat) :
    headChar (s!"Total base names skipped or failed:    {n}") = some 'T' :=
  headChar_append _ _ _ (headChar_append _ _ _ rfl)

theorem sumLine_headChar (n : Nat) :
    headChar ("  - Sum of rows from all source files:  " ++ commaFmt n) = some ' ' :=
  headChar_append _ _ _ rfl

theorem finalLine_headChar (n : Nat) :
    headChar ("  - Total rows in the final master file:  " ++ commaFmt n) = some ' ' :=
  headChar_append _ _ _ rfl

theorem groupingLine_headChar (n : Nat) :
    headChar (s!"Grouping complete. Found {n} unique base names to process.") = some 'G' :=
  headChar_append _ _ _ (headChar_append _ _ _ rfl)

/-- On a mismatch every summary line starts with a character other than the
PASSED marker. -/
theorem summary_no_passed (succ skip c f : Nat) (h : f ≠ c) :
    ∀ line ∈ summaryLines succ skip c f, headChar line ≠ some '✅' := by
  simp only [summaryLines, if_neg h, List.append_assoc, List.forall_mem_append,
    List.forall_mem_cons, List.forall_mem_nil, and_true]
  repeat' apply And.intro
  all_goals first
    | decide
    | (rw [totalSuccLine_headChar]; decide)
    | (rw [totalSkipLine_headChar]; decide)
    | (rw [sumLine_headChar]; decide)
    | (rw [finalLine_headChar]; decide)
    | (rw [failedLine_headChar]; decide)
    | exact fun _ _ => by decide

/-- When the counts match no summary line starts with the FAILED marker. -/
theorem summary_no_failed (succ skip c f : Nat) (h : f = c) :
    ∀ line ∈ summaryLines succ skip c f, headChar line ≠ some '❌' := by
  simp only [summaryLines, if_pos h, List.append_assoc, List.forall_mem_append,
    List.forall_mem_cons, List.forall_mem_nil, and_true]
  repeat' apply And.intro
  all_goals first
    | decide
    | (rw [totalSuccLine_headChar]; decide)
    | (rw [totalSkipLine_headChar]; decide)
    | (rw [sumLine_headChar]; decide)
    | (rw [finalLine_headChar]; decide)
    | (rw [passedLine_headChar]; decide)
    | exact fun _ _ => by decide

/-- The PASSED verdict stands in the summary block exactly when the final
row count equals the source row counter. -/
theorem passedLine_mem_summary (succ skip c f : Nat) :
    (passedLine ∈ summaryLines succ skip c f) ↔ f = c := by
  by_cases h : f = c
  · simp [summaryLines, h]
  · exact iff_of_false
      (fun hm => summary_no_passed succ skip c f h passedLine hm passedLine_headChar) h

/-- On a mismatch the FAILED verdict line with the absolute difference is in
the summary block. -/
theorem failedLine_mem_summary (succ skip c f : Nat) (h : f ≠ c) :
    failedLine (((f : Int) - (c : Int)).natAbs) ∈ summaryLines succ skip c f := by
  simp [summaryLines, if_neg h]

/-- When the counts match, no FAILED verdict line of any magnitude is in the
summary block. -/
theorem failedLine_not_mem_summary (succ skip c f m : Nat) (h : f = c) :
    failedLine m ∉ summaryLines succ skip c f :=
  fun hm => summary_no_failed succ skip c f h (failedLine m) hm (failedLine_headChar m)

/-- Every log line before the summary block starts with a character other
than either verdict marker. -/
theorem prefix_no_verdict (files : List (String × String))
    (rc : String → ParseResult) :
    ∀ line ∈ headLog files ++ (sortPairs (discoverPairs files)).map (unitLogLine rc) ++
        ["\n--- Part 3: Compiling Final Output ---"],
      headChar line ≠ some '✅' ∧ headChar line ≠ some '❌' := by
  simp only [headLog, List.append_assoc, List.forall_mem_append, List.forall_mem_cons,
    List.forall_mem_nil, and_true, List.forall_mem_map]
  repeat' apply And.intro
  all_goals first
    | decide
    | (rw [groupingLine_headChar]; decide)
    | exact fun _ _ => by rw [unitLogLine_headChar]; exact ⟨by decide, by decide⟩

/-- C2: for every run that reaches the aggregation stage with at least one
combined table, the log ends with the summary block, contains the PASSED
verdict iff the final master row count equals the source row counter, and on
a mismatch contains the FAILED verdict with the absolute difference (and no
FAILED line of any magnitude when the counts match). -/
theorem C2_verdict_reconciliation (files : List (String × String))
    (rc : String → ParseResult)
    (hne : (discoverPairs files).isEmpty = false)
    (htab : ((sortPairs (discoverPairs files)).filterMap (unitTable rc)).isEmpty = false) :
    (compile_csv_files_from_zip (ExtractResult.ok files) rc).2 =
      headLog files ++ (sortPairs (discoverPairs files)).map (unitLogLine rc) ++
        ["\n--- Part 3: Compiling Final Output ---"] ++
        summaryLines
          ((sortPairs (discoverPairs files)).countP (fun p => unitSuccess rc p))
          ((sortPairs (discoverPairs files)).countP (fun p => !unitSuccess rc p))
          (((sortPairs (discoverPairs files)).map (unitCounter rc)).sum)
          (((sortPairs (discoverPairs files)).filterMap (unitTable rc)).flatten.length) ∧
    ((passedLine ∈ (compile_csv_files_from_zip (ExtractResult.ok files) rc).2) ↔
      ((sortPairs (discoverPairs files)).filterMap (unitTable rc)).flatten.length =
        ((sortPairs (discoverPairs files)).map (unitCounter rc)).sum) ∧
    (((sortPairs (discoverPairs files)).filterMap (unitTable rc)).flatten.length ≠
        ((sortPairs (discoverPairs files)).map (unitCounter rc)).sum →
      failedLine ((((((sortPairs (discoverPairs files)).filterMap
            (unitTable rc)).flatten.length : Int)) -
          ((((sortPairs (discoverPairs files)).map (unitCounter rc)).sum : Int))).natAbs) ∈
        (compile_csv_files_from_zip (ExtractResult.ok files) rc).2) ∧
    (((sortPairs (discoverPairs files)).filterMap (unitTable rc)).flatten.length =
        ((sortPairs (discoverPairs files)).map (unitCounter rc)).sum →
      ∀ m, failedLine m ∉ (compile_csv_files_from_zip (ExtractResult.ok files) rc).2) := by
  have hres : (compile_csv_files_from_zip (ExtractResult.ok files) rc).2 =
      headLog files ++ (sortPairs (discoverPairs files)).map (unitLogLine rc) ++
        ["\n--- Part 3: Compiling Final Output ---"] ++
        summaryLines
          ((sortPairs (discoverPairs files)).countP (fun p => unitSuccess rc p))
          ((sortPairs (discoverPairs files)).countP (fun p => !unitSuccess rc p))
          (((sortPairs (discoverPairs files)).map (unitCounter rc)).sum)
          (((sortPairs (discoverPairs files)).filterMap (unitTable rc)).flatten.length) := by
    rw [compile_ok_eq]
    simp [hne, htab]
  refine ⟨hres, ?_, ?_, ?_⟩
  · rw [hres]
    constructor
    · intro hm
      rcases List.mem_append.mp hm with h | h
      · exact absurd passedLine_headChar (prefix_no_verdict files rc passedLine h).1
      · exact (passedLine_mem_summary _ _ _ _).mp h
    · intro he
      exact List.mem_append.mpr (Or.inr ((passedLine_mem_summary _ _ _ _).mpr he))
  · intro hne2
    rw [hres]
    exact List.mem_append.mpr (Or.inr (failedLine_mem_summary _ _ _ _ hne2))
  · intro he m hm
    rw [hres] at hm
    rcases List.mem_append.mp hm with h | h
    · exact absurd (failedLine_headChar m) (prefix_no_verdict files rc (failedLine m) h).2
    · exact failedLine_not_mem_summary _ _ _ _ m he h

/-- Witness for C2 at the concrete scenario archive. -/
theorem C2_verdict_reconciliation_witness :
    (discoverPairs demoFiles).isEmpty = false ∧
    ((sortPairs (discoverPairs demoFiles)).filterMap (unitTable demoRead)).isEmpty = false ∧
    ((passedLine ∈ (compile_csv_files_from_zip (ExtractResult.ok demoFiles) demoRead).2) ↔
      ((sortPairs (discoverPairs demoFiles)).filterMap (unitTable demoRead)).flatten.length =
        ((sortPairs (discoverPairs demoFiles)).map (unitCounter demoRead)).sum) :=
  ⟨by decide, by decide,
    (C2_verdict_reconciliation demoFiles demoRead (by decide) (by decide)).2.1⟩

/-- C3: the master table is the concatenation of the per-unit tables taken
in ascending lexicographic order of base name — the processed list is a
sorted permutation of the discovered mapping, any returned master table is
the flattening of the per-unit tables in that order, and any two archives
whose discovered mappings are permutations of each other (discovery order
differing) produce identical results. -/
theorem C3_lexicographic_order (files : List (String × String))
    (rc : String → ParseResult) :
    ((sortPairs (discoverPairs files)).map Prod.fst).Sorted (· ≤ ·) ∧
    (sortPairs (discoverPairs files)).Perm (discoverPairs files) ∧
    (∀ (master : List String) (lg : List String),
      compile_csv_files_from_zip (ExtractResult.ok files) rc = (some master, lg) →
      master = ((sortPairs (discoverPairs files)).filterMap (unitTable rc)).flatten) ∧
    (∀ files2 : List (String × String),
      (discoverPairs files2).Perm (discoverPairs files) →
      compile_csv_files_from_zip (ExtractResult.ok files2) rc =
        compile_csv_files_from_zip (ExtractResult.ok files) rc) := by
  refine ⟨sortPairs_sorted_keys _, sortPairs_perm _, ?_, ?_⟩
  · intro master lg h
    rw [compile_ok_eq] at h
    by_cases h1 : (discoverPairs files).isEmpty
    · simp [h1] at h
    · by_cases h2 : ((sortPairs (discoverPairs files)).filterMap (unitTable rc)).isEmpty
      · simp [h1, h2] at h
      · simp only [h1, h2, Bool.false_eq_true, if_false, Prod.mk.injEq,
          Option.some.injEq] at h
        exact h.1.symm
  · intro files2 hperm
    have hsort := sortPairs_eq_of_perm hperm (discoverPairs_keys_nodup files2)
    have hlen : (discoverPairs files2).length = (discoverPairs files).length :=
      hperm.length_eq
    have hhead : headLog files2 = headLog files := by simp [headLog, hlen]
    have hemp : (discoverPairs files2).isEmpty = (discoverPairs files).isEmpty := by
      cases e1 : discoverPairs files2 <;> cases e2 : discoverPairs files <;>
        simp_all
    rw [compile_ok_eq, compile_ok_eq, hsort, hhead, hemp]

/-- C4: when the detail file parses, a present supplemental that parses to
nonempty data makes the unit's table the concatenation detail-then-
supplemental and adds both row counts to the source counter, while a
syntactically empty supplemental (EmptyDataError) leaves the detail table
alone, counts only detail rows, and is still a success. -/
theorem C4_sup_concatenation (rc : String → ParseResult) (st : CombineState)
    (base dpath spath : String) (d : List String)
    (hd : rc dpath = ParseResult.ok d) :
    (∀ s : List String, rc spath = ParseResult.ok s → s ≠ [] →
      processPair rc st (base, ⟨some dpath, some spath⟩) =
        ⟨st.all_dataframes ++ [d ++ s], st.source_row_counter + d.length + s.length,
         st.success_count + 1, st.skipped_count,
         st.log_messages ++ [processedLine base]⟩) ∧
    (∀ msg : String, rc spath = ParseResult.error msg true →
      processPair rc st (base, ⟨some dpath, some spath⟩) =
        ⟨st.all_dataframes ++ [d], st.source_row_counter + d.length,
         st.success_count + 1, st.skipped_count,
         st.log_messages ++ [processedLine base]⟩) := by
  constructor
  · intro s hs hne
    cases s with
    | nil => exact absurd rfl hne
    | cons a as => simp [processPair, hd, hs, Nat.add_assoc]
  · intro msg hs
    simp [processPair, hd, hs]

/-- Witness for C4: a two-row detail with a one-row supplemental yields the
three-row concatenation and counts three source rows. -/
theorem C4_sup_concatenation_witness :
    pairRead "d.csv" = ParseResult.ok ["r1", "r2"] ∧
    pairRead "s.csv" = ParseResult.ok ["s1"] ∧
    processPair pairRead ⟨[], 0, 0, 0, []⟩ ("b", ⟨some "d.csv", some "s.csv"⟩) =
      ⟨[["r1", "r2", "s1"]], 3, 1, 0, [processedLine "b"]⟩ :=
  ⟨by decide, by decide,
    (C4_sup_concatenation pairRead ⟨[], 0, 0, 0, []⟩ "b" "d.csv" "s.csv" ["r1", "r2"]
      (by decide)).1 ["s1"] (by decide) (by decide)⟩

/-- C5: a present, nonempty, malformed supplemental (parse error that is not
EmptyDataError) is handled like a detail-parse failure: the error line is
logged, the unit is counted as skipped, no table is appended (no fallback to
the detail table), and the loop goes on with the remaining base names. -/
theorem C5_malformed_sup (rc : String → ParseResult) (st : CombineState)
    (base dpath spath : String) (d : List String) (msg : String)
    (hd : rc dpath = ParseResult.ok d)
    (hs : rc spath = ParseResult.error msg false) :
    processPair rc st (base, ⟨some dpath, some spath⟩) =
      ⟨st.all_dataframes, st.source_row_counter + d.length, st.success_count,
       st.skipped_count + 1, st.log_messages ++ [errorLine base msg]⟩ ∧
    unitTable rc (base, ⟨some dpath, some spath⟩) = none ∧
    unitSuccess rc (base, ⟨some dpath, some spath⟩) = false ∧
    (∀ (rest : List (String × PairPaths)) (st' : CombineState),
      combinePairs rc ((base, ⟨some dpath, some spath⟩) :: rest) st' =
        combinePairs rc rest (processPair rc st' (base, ⟨some dpath, some spath⟩))) :=
  ⟨by simp [processPair, hd, hs], by simp [unitTable, hd, hs],
   by simp [unitSuccess, unitTable, hd, hs], fun _ _ => rfl⟩

/-- Witness for C5: a malformed supplemental skips the unit, logs the error
and appends no table. -/
theorem C5_malformed_sup_witness :
    pairRead "bad.csv" = ParseResult.error "ParserError: bad" false ∧
    processPair pairRead ⟨[], 0, 0, 0, []⟩ ("b", ⟨some "d.csv", some "bad.csv"⟩) =
      ⟨[], 2, 0, 1, [errorLine "b" "ParserError: bad"]⟩ :=
  ⟨by decide,
    (C5_malformed_sup pairRead ⟨[], 0, 0, 0, []⟩ "b" "d.csv" "bad.csv" ["r1", "r2"]
      "ParserError: bad" (by decide) (by decide)).1⟩

/-- C7: a base name with no detail member contributes nothing to the tables
or the counter, is counted as skipped with a warning logged, and its
supplemental file is never read (the outcome does not depend on the parse
oracle at all). -/
theorem C7_missing_detail (rc : String → ParseResult) (st : CombineState)
    (base : String) (paths : PairPaths) (h : paths.detail = none) :
    processPair rc st (base, paths) =
      ⟨st.all_dataframes, st.source_row_counter, st.success_count,
       st.skipped_count + 1, st.log_messages ++ [warnLine base]⟩ ∧
    unitTable rc (base, paths) = none ∧
    unitCounter rc (base, paths) = 0 ∧
    unitSuccess rc (base, paths) = false ∧
    (∀ rc' : String → ParseResult,
      processPair rc' st (base, paths) = processPair rc st (base, paths)) := by
  obtain ⟨det, sup⟩ := paths
  simp only [PairPaths.detail] at h
  subst h
  exact ⟨by simp [processPair], by simp [unitTable], by simp [unitCounter],
    by simp [unitSuccess, unitTable], fun rc' => rfl⟩

/-- Witness for C7 at the concrete scenario's Z unit. -/
theorem C7_missing_detail_witness :
    (PairPaths.mk none (some "t/Z_e_sup.csv")).detail = none ∧
    processPair demoRead ⟨[], 0, 0, 0, []⟩ ("Z", ⟨none, some "t/Z_e_sup.csv"⟩) =
      ⟨[], 0, 0, 1, [warnLine "Z"]⟩ :=
  ⟨rfl, (C7_missing_detail demoRead ⟨[], 0, 0, 0, []⟩ "Z" ⟨none, some "t/Z_e_sup.csv"⟩
    rfl).1⟩

/-- C10: a supplemental that parses successfully to zero data rows behaves
exactly like an absent supplemental: the unit succeeds with the detail table
alone and only detail rows are counted. -/
theorem C10_zero_row_sup (rc : String → ParseResult) (st : CombineState)
    (base dpath spath : String) (d : List String)
    (hd : rc dpath = ParseResult.ok d)
    (hs : rc spath = ParseResult.ok []) :
    processPair rc st (base, ⟨some dpath, some spath⟩) =
      processPair rc st (base, ⟨some dpath, none⟩) ∧
    processPair rc st (base, ⟨some dpath, some spath⟩) =
      ⟨st.all_dataframes ++ [d], st.source_row_counter + d.length,
       st.success_count + 1, st.skipped_count,
       st.log_messages ++ [processedLine base]⟩ ∧
    unitCounter rc (base, ⟨some dpath, some spath⟩) = d.length ∧
    unitSuccess rc (base, ⟨some dpath, some spath⟩) = true := by
  refine ⟨?_, ?_, ?_, ?_⟩ <;>
    simp [processPair, unitCounter, unitSuccess, unitTable, hd, hs]

/-- Witness for C10: a zero-row supplemental leaves the two detail rows
alone and the unit succeeds. -/
theorem C10_zero_row_sup_witness :
    pairRead "zero.csv" = ParseResult.ok [] ∧
    processPair pairRead ⟨[], 0, 0, 0, []⟩ ("b", ⟨some "d.csv", some "zero.csv"⟩) =
      ⟨[["r1", "r2"]], 2, 1, 0, [processedLine "b"]⟩ :=
  ⟨by decide,
    (C10_zero_row_sup pairRead ⟨[], 0, 0, 0, []⟩ "b" "d.csv" "zero.csv" ["r1", "r2"]
      (by decide) (by decide)).2.1⟩

/-- C6 counterexample: unit B's detail parses successfully (to zero rows)
and its present supplemental then fails to parse, every other unit (A)
succeeds — yet the final master row count (1) equals the source row counter
(1) and the verdict is PASSED, contradicting the claimed strict inequality
and FAILED verdict. -/
theorem C6_counterexample :
    c6Read "t/B_e_detail.csv" = ParseResult.ok [] ∧
    c6Read "t/B_e_sup.csv" = ParseResult.error "ParserError: bad" false ∧
    discoverPairs c6Files =
      [("A", ⟨some "t/A_e_detail.csv", none⟩),
       ("B", ⟨some "t/B_e_detail.csv", some "t/B_e_sup.csv"⟩)] ∧
    unitSuccess c6Read ("A", ⟨some "t/A_e_detail.csv", none⟩) = true ∧
    unitTable c6Read ("B", ⟨some "t/B_e_detail.csv", some "t/B_e_sup.csv"⟩) = none ∧
    (compile_csv_files_from_zip (ExtractResult.ok c6Files) c6Read).1 = some ["a1"] ∧
    ((sortPairs (discoverPairs c6Files)).map (unitCounter c6Read)).sum = 1 ∧
    passedLine ∈ (compile_csv_files_from_zip (ExtractResult.ok c6Files) c6Read).2 := by
  refine ⟨by decide, by decide, by decide, by decide, by decide, by decide, by decide,
    by decide⟩

/-- A sup-failed unit contributes no table but at least one counted row. -/
theorem supFailB_spec (rc : String → ParseResult) (pair : String × PairPaths)
    (h : supFailB rc pair = true) :
    unitTable rc pair = none ∧ 1 ≤ unitCounter rc pair := by
  rcases pair with ⟨base, det, sup⟩
  rcases det with _ | dpath
  · simp [supFailB] at h
  · rcases hd : rc dpath with d | ⟨m, b⟩
    · rcases sup with _ | spath
      · simp [supFailB, hd] at h
      · rcases hs : rc spath with s | ⟨m2, b2⟩
        · simp [supFailB, hd, hs] at h
        · cases b2
          · simp only [supFailB, hd, hs, Bool.and_eq_true, Bool.not_eq_true'] at h
            refine ⟨by simp [unitTable, hd, hs], ?_⟩
            cases d with
            | nil => simp at h
            | cons a as => simp [unitCounter, hd, hs]
          · simp [supFailB, hd, hs] at h
    · simp [supFailB, hd] at h

/-- A successful unit's table has exactly its counted number of rows. -/
theorem unitSuccess_table_length (rc : String → ParseResult)
    (pair : String × PairPaths) (h : unitSuccess rc pair = true) :
    ∃ t, unitTable rc pair = some t ∧ t.length = unitCounter rc pair := by
  rcases pair with ⟨base, det, sup⟩
  rcases det with _ | dpath
  · simp [unitSuccess, unitTable] at h
  · rcases hd : rc dpath with d | ⟨m, b⟩
    · rcases sup with _ | spath
      · exact ⟨d, by simp [unitTable, hd], by simp [unitCounter, hd]⟩
      · rcases hs : rc spath with s | ⟨m2, b2⟩
        · by_cases he : s.isEmpty
          · exact ⟨d, by simp [unitTable, hd, hs, he], by simp [unitCounter, hd, hs, he]⟩
          · exact ⟨d ++ s, by simp [unitTable, hd, hs, he],
              by simp [unitCounter, hd, hs, he]⟩
        · cases b2
          · simp [unitSuccess, unitTable, hd, hs] at h
          · exact ⟨d, by simp [unitTable, hd, hs], by simp [unitCounter, hd, hs]⟩
    · simp [unitSuccess, unitTable, hd] at h

/-- A table never holds more rows than the unit adds to the counter. -/
theorem unitTable_length_le (rc : String → ParseResult) (pair : String × PairPaths) :
    ((unitTable rc pair).getD []).length ≤ unitCounter rc pair := by
  rcases pair with ⟨base, det, sup⟩
  rcases det with _ | dpath
  · simp [unitTable, unitCounter]
  · rcases hd : rc dpath with d | ⟨m, b⟩
    · rcases sup with _ | spath
      · simp [unitTable, unitCounter, hd]
      · rcases hs : rc spath with s | ⟨m2, b2⟩
        · by_cases he : s.isEmpty <;> simp [unitTable, unitCounter, hd, hs, he]
        · cases b2 <;> simp [unitTable, unitCounter, hd, hs]
    · simp [unitTable, unitCounter, hd]

/-- The master table's length is the sum of the per-unit table lengths. -/
theorem flatten_filterMap_length (rc : String → ParseResult) :
    ∀ l : List (String × PairPaths),
    ((l.filterMap (unitTable rc)).flatten).length =
      (l.map (fun p => ((unitTable rc p).getD []).length)).sum
  | [] => rfl
  | p :: rest => by
    cases h : unitTable rc p <;>
      simp [List.filterMap_cons, h, flatten_filterMap_length rc rest]

/-- C6 amended: when at least one unit has a successfully parsed, nonempty
detail table and a present supplemental whose parse fails, every unit is
either such a failure or a success, and at least one unit succeeds, the
final master row count is strictly below the source row counter and the log
carries the FAILED verdict with the difference. -/
theorem C6_amended (files : List (String × String)) (rc : String → ParseResult)
    (hfail : ∃ p ∈ sortPairs (discoverPairs files), supFailB rc p = true)
    (hall : ∀ p ∈ sortPairs (discoverPairs files),
      supFailB rc p = true ∨ unitSuccess rc p = true)
    (hsucc : ∃ p ∈ sortPairs (discoverPairs files), unitSuccess rc p = true) :
    ∃ (master : List String) (lg : List String),
      compile_csv_files_from_zip (ExtractResult.ok files) rc = (some master, lg) ∧
      master.length < ((sortPairs (discoverPairs files)).map (unitCounter rc)).sum ∧
      failedLine (((master.length : Int) -
        ((((sortPairs (discoverPairs files)).map (unitCounter rc)).sum : Int))).natAbs) ∈
        lg := by
  obtain ⟨q, hq, hqs⟩ := hsucc
  have hmem : q ∈ discoverPairs files := (sortPairs_perm (discoverPairs files)).subset hq
  have hne : ¬ ((discoverPairs files).isEmpty = true) := by
    intro h'
    rw [List.isEmpty_iff.mp h'] at hmem
    cases hmem
  obtain ⟨t, ht, htl⟩ := unitSuccess_table_length rc q hqs
  have htmem : t ∈ (sortPairs (discoverPairs files)).filterMap (unitTable rc) :=
    List.mem_filterMap.mpr ⟨q, hq, ht⟩
  have htab : ¬ (((sortPairs (discoverPairs files)).filterMap (unitTable rc)).isEmpty
      = true) := by
    intro h'
    rw [List.isEmpty_iff.mp h'] at htmem
    cases htmem
  have hres := compile_ok_eq files rc
  rw [if_neg hne, if_neg htab] at hres
  refine ⟨_, _, hres, ?_, ?_⟩
  · rw [flatten_filterMap_length]
    obtain ⟨p, hp, hpf⟩ := hfail
    obtain ⟨hpt, hpc⟩ := supFailB_spec rc p hpf
    refine List.sum_lt_sum _ _ (fun x _ => unitTable_length_le rc x) ⟨p, hp, ?_⟩
    rw [hpt]
    simpa using hpc
  · have hlt : (((sortPairs (discoverPairs files)).filterMap
        (unitTable rc)).flatten).length <
        ((sortPairs (discoverPairs files)).map (unitCounter rc)).sum := by
      rw [flatten_filterMap_length]
      obtain ⟨p, hp, hpf⟩ := hfail
      obtain ⟨hpt, hpc⟩ := supFailB_spec rc p hpf
      refine List.sum_lt_sum _ _ (fun x _ => unitTable_length_le rc x) ⟨p, hp, ?_⟩
      rw [hpt]
      simpa using hpc
    exact List.mem_append.mpr (Or.inr (failedLine_mem_summary _ _ _ _ (Nat.ne_of_lt hlt)))

/-- Witness for the amended C6: B's one detail row is retained by the
counter while B contributes no table, so the verdict fails by one row. -/
theorem C6_amended_witness :
    (∃ p ∈ sortPairs (discoverPairs c6Files), supFailB c6bRead p = true) ∧
    ∃ (master : List String) (lg : List String),
      compile_csv_files_from_zip (ExtractResult.ok c6Files) c6bRead = (some master, lg) ∧
      master.length < ((sortPairs (discoverPairs c6Files)).map (unitCounter c6bRead)).sum ∧
      failedLine (((master.length : Int) -
        ((((sortPairs (discoverPairs c6Files)).map (unitCounter c6bRead)).sum : Int))).natAbs) ∈
        lg :=
  ⟨by decide, C6_amended c6Files c6bRead (by decide) (by decide) (by decide)⟩

/-- C9: a walked file whose name begins with `._`, or ends in neither
recognized suffix, is never classified, never enters the base-name mapping,
and has no effect whatsoever on the run's result. -/
theorem C9_unrecognized_ignored (pre post : List (String × String))
    (root fn : String) (rc : String → ParseResult)
    (h : pyStartsWith fn "._" = true ∨
      (pyEndsWith fn "_e_detail.csv" = false ∧ pyEndsWith fn "_e_sup.csv" = false)) :
    classify fn = none ∧
    discoverPairs (pre ++ (root, fn) :: post) = discoverPairs (pre ++ post) ∧
    compile_csv_files_from_zip (ExtractResult.ok (pre ++ (root, fn) :: post)) rc =
      compile_csv_files_from_zip (ExtractResult.ok (pre ++ post)) rc := by
  have hc : classify fn = none := by
    rcases h with h | ⟨h1, h2⟩
    · simp [classify, h]
    · simp [classify, h1, h2]
  have hdisc : discoverPairs (pre ++ (root, fn) :: post) = discoverPairs (pre ++ post) := by
    simp only [discoverPairs, List.foldl_append, List.foldl_cons]
    rw [show discoverStep (List.foldl discoverStep [] pre) (root, fn) =
        List.foldl discoverStep [] pre by simp [discoverStep, hc]]
  have hhead : headLog (pre ++ (root, fn) :: post) = headLog (pre ++ post) := by
    simp [headLog, hdisc]
  refine ⟨hc, hdisc, ?_⟩
  rw [compile_ok_eq, compile_ok_eq, hdisc, hhead]

/-- Witness for C9: adding an AppleDouble `._` file to the concrete
scenario's archive changes nothing. -/
theorem C9_unrecognized_ignored_witness :
    pyStartsWith "._X_e_detail.csv" "._" = true ∧
    compile_csv_files_from_zip
        (ExtractResult.ok (demoFiles ++ [("t", "._X_e_detail.csv")])) demoRead =
      compile_csv_files_from_zip (ExtractResult.ok demoFiles) demoRead :=
  ⟨by decide, by
    have h := (C9_unrecognized_ignored demoFiles [] "t" "._X_e_detail.csv" demoRead
      (Or.inl (by decide))).2.2
    simpa using h⟩
